import Mathlib

/-!
Verification development for the EASEACCESS backend relay
(src/backend/index.js): shallow embedding of the three endpoint
handlers — text-to-speech synthesis relay (`POST /api/tts`), batch
transcription relay (`POST /api/transcribe`) and the live
transcription WebSocket bridge — together with theorems settling the
specification claims about them.

External collaborators (the Google synthesis/recognition engines,
ffmpeg, pdf-parse, mammoth, the filesystem) are modelled as oracles:
each call site is a field of an environment record whose value is an
`Except String α` (`Except.error e` models a thrown/rejected error
with message `e`).  Handlers are total Lean functions from the
environment to an HTTP response paired with a trace of the side
effects the claims talk about (which adapters were invoked, with which
arguments, and which temporary files were deleted).
-/

/-- A JavaScript call that can throw: `Except.error e` is a thrown error
whose `message` is `e`. -/
abbrev JsResult (α : Type) := Except String α

/-- Boolean success test on a modelled JS call. -/
def isOkB {α : Type} : JsResult α → Bool
  | Except.ok _ => true
  | Except.error _ => false

/-- Boolean failure test on a modelled JS call. -/
def isErr {α : Type} : JsResult α → Bool
  | Except.ok _ => false
  | Except.error _ => true

/-! ## Synthesis relay: `POST /api/tts` (src/backend/index.js lines 42-101) -/

/-- The uploaded file as the handler sees it: `ext` is
`path.extname(req.file.originalname).toLowerCase()`. -/
structure TtsFile where
  ext : String
  deriving Repr, DecidableEq

/-- Body of an HTTP response from the tts handler: binary audio
(`res.send(audioContent)` with `Content-Type: audio/mpeg`) or a
plain-text message. -/
inductive TtsBody where
  | audio (bytes : String)
  | text (msg : String)
  deriving Repr, DecidableEq

/-- An HTTP response: status code and body. -/
structure TtsResponse where
  status : Nat
  body : TtsBody
  deriving Repr, DecidableEq

/-- Environment of external calls the tts handler can make.  `engine`
models `ttsClient.synthesizeSpeech`, keyed by the input text (voice and
audio config are fixed literals in the source). -/
structure TtsEnv where
  readTxt : JsResult String
  pdfExtract : JsResult String
  docxExtract : JsResult String
  unlinkUpload : JsResult Unit
  engine : String → JsResult String

/-- Trace of the observable side effects of one tts request:
which extraction adapters ran (in order), the texts passed to the
synthesis engine (in order), and whether the uploaded temp file was
deleted. -/
structure TtsTrace where
  extractorCalls : List String
  synthCalls : List String
  uploadDeleted : Bool
  deriving Repr, DecidableEq

/-- JS truthiness test on `req.body.text`: `!text` holds when the field
is absent or the empty string. -/
def textIsFalsy : Option String → Bool
  | none => true
  | some t => decide (t = "")

/-- The fixed apology phrase of the fallback synthesis call
(line 91 of the source). -/
def apologyText : String := "Sorry, text to speech failed. Please try again."

/-- The blank test of line 71, `!text || !text.trim()`: a (present)
string fails it exactly when stripping whitespace from both ends leaves
nothing, that is when every character is whitespace (the empty string
included). -/
def isBlank (t : String) : Bool :=
  t.data.all Char.isWhitespace

/-- Lines 71-83 of the source: reject absent/blank text with 400,
otherwise call the synthesis engine once with the resolved text and
return its audio with status 200; an engine error is thrown out of the
try block. -/
def synthPhase (text? : Option String) (tr : TtsTrace) (env : TtsEnv) :
    JsResult TtsResponse × TtsTrace :=
  match text? with
  | none => (Except.ok ⟨400, TtsBody.text "No text found for TTS"⟩, tr)
  | some t =>
      if isBlank t then
        (Except.ok ⟨400, TtsBody.text "No text found for TTS"⟩, tr)
      else
        match env.engine t with
        | Except.error e =>
            (Except.error e, { tr with synthCalls := tr.synthCalls ++ [t] })
        | Except.ok audio =>
            (Except.ok ⟨200, TtsBody.audio audio⟩,
             { tr with synthCalls := tr.synthCalls ++ [t] })

/-- One extraction branch (lines 51-68): run the adapter, then
`fs.unlinkSync(filePath)`, then continue with the extracted text; an
error from either is thrown out of the try block. -/
def extractThen (res : JsResult String) (kind : String) (env : TtsEnv)
    (tr : TtsTrace) : JsResult TtsResponse × TtsTrace :=
  let tr1 : TtsTrace := { tr with extractorCalls := tr.extractorCalls ++ [kind] }
  match res with
  | Except.error e => (Except.error e, tr1)
  | Except.ok s =>
      match env.unlinkUpload with
      | Except.error e => (Except.error e, tr1)
      | Except.ok _ =>
          synthPhase (some s) { tr1 with uploadDeleted := true } env

/-- Extension dispatch of lines 48-66: `.txt` reads the file as UTF-8,
`.pdf` runs pdf-parse, `.docx` runs mammoth, anything else returns 400
immediately (before any adapter call and before the unlink). -/
def fileBranch (f : TtsFile) (env : TtsEnv) (tr : TtsTrace) :
    JsResult TtsResponse × TtsTrace :=
  if f.ext = ".txt" then extractThen env.readTxt "txt" env tr
  else if f.ext = ".pdf" then extractThen env.pdfExtract "pdf" env tr
  else if f.ext = ".docx" then extractThen env.docxExtract "docx" env tr
  else
    (Except.ok ⟨400,
      TtsBody.text "Unsupported file type. Please upload .txt, .pdf, or .docx"⟩, tr)

/-- The try block of the tts handler (lines 43-83): `Except.ok r` means
the block returned response `r`; `Except.error e` means it threw `e`
into the catch block. -/
def ttsTryBody (text? : Option String) (file? : Option TtsFile) (env : TtsEnv) :
    JsResult TtsResponse × TtsTrace :=
  let tr0 : TtsTrace := ⟨[], [], false⟩
  if textIsFalsy text? then
    match file? with
    | some f => fileBranch f env tr0
    | none => synthPhase text? tr0 env
  else
    synthPhase text? tr0 env

/-- The whole `POST /api/tts` handler (lines 42-101): the catch block
makes exactly one fallback synthesis call with the fixed apology
phrase; if that call succeeds its audio is sent with status 200, and if
it also fails the handler answers 500 "TTS failed completely." — the
fallback failure is itself caught, so the handler always produces a
response. -/
def ttsHandler (text? : Option String) (file? : Option TtsFile) (env : TtsEnv) :
    TtsResponse × TtsTrace :=
  match ttsTryBody text? file? env with
  | (Except.ok r, tr) => (r, tr)
  | (Except.error _, tr) =>
      match env.engine apologyText with
      | Except.ok audio =>
          (⟨200, TtsBody.audio audio⟩,
           { tr with synthCalls := tr.synthCalls ++ [apologyText] })
      | Except.error _ =>
          (⟨500, TtsBody.text "TTS failed completely."⟩,
           { tr with synthCalls := tr.synthCalls ++ [apologyText] })

/-! ## Batch transcription relay: `POST /api/transcribe` (lines 106-141) -/

/-- One entry of `response.results` from the non-streaming recognizer:
the transcripts of its alternatives, best first. -/
structure SttResult where
  alternatives : List String
  deriving Repr, DecidableEq

/-- Body of an HTTP response from the transcribe handler:
`res.json({transcript})` on success, `res.json({error})` on failure. -/
inductive SttBody where
  | transcriptJson (t : String)
  | errorJson (e : String)
  deriving Repr, DecidableEq

/-- An HTTP response from the transcribe handler. -/
structure SttResponse where
  status : Nat
  body : SttBody
  deriving Repr, DecidableEq

/-- Environment of external calls for one transcription job:
the ffmpeg conversion promise, the read of the produced wav file, the
recognizer, and the two `fs.unlinkSync` calls. -/
structure SttEnv where
  transcoder : JsResult Unit
  readWav : JsResult String
  recognize : JsResult (List SttResult)
  unlinkUpload : JsResult Unit
  unlinkWav : JsResult Unit

/-- Trace of one transcription job: whether the recognizer was invoked
and whether each temporary file was deleted. -/
structure SttTrace where
  recognizeCalled : Bool
  uploadDeleted : Bool
  wavDeleted : Bool
  deriving Repr, DecidableEq

/-- Line 135 of the source:
`response.results.map(r => r.alternatives[0].transcript).join(" ")`.
Accessing `alternatives[0]` of an entry with no alternatives throws a
TypeError, modelled as `none`. -/
def joinTranscripts (results : List SttResult) : Option String :=
  ((results.mapM fun r => r.alternatives.head? : Option (List String))).map
    (String.intercalate " ")

/-- The try block of the transcribe handler (lines 107-136), in source
order: await ffmpeg, read the wav, call the recognizer, unlink the
upload, unlink the wav, join the transcripts, answer 200.  The first
thrown error aborts the rest. -/
def transcribeTry (env : SttEnv) : JsResult SttResponse × SttTrace :=
  match env.transcoder with
  | Except.error e => (Except.error e, ⟨false, false, false⟩)
  | Except.ok _ =>
      match env.readWav with
      | Except.error e => (Except.error e, ⟨false, false, false⟩)
      | Except.ok _audio =>
          match env.recognize with
          | Except.error e => (Except.error e, ⟨true, false, false⟩)
          | Except.ok results =>
              match env.unlinkUpload with
              | Except.error e => (Except.error e, ⟨true, false, false⟩)
              | Except.ok _ =>
                  match env.unlinkWav with
                  | Except.error e => (Except.error e, ⟨true, true, false⟩)
                  | Except.ok _ =>
                      match joinTranscripts results with
                      | none =>
                          (Except.error "Cannot read properties of undefined",
                           ⟨true, true, true⟩)
                      | some t =>
                          (Except.ok ⟨200, SttBody.transcriptJson t⟩,
                           ⟨true, true, true⟩)

/-- The whole `POST /api/transcribe` handler (lines 106-141): any error
thrown in the try block is converted by the catch block into
`500 {error: err.message}`; the catch block performs no cleanup. -/
def transcribeHandler (env : SttEnv) : SttResponse × SttTrace :=
  match transcribeTry env with
  | (Except.ok r, tr) => (r, tr)
  | (Except.error e, tr) => (⟨500, SttBody.errorJson e⟩, tr)

/-! ## Live transcription bridge (lines 152-186) -/

/-- One entry of `data.results` on a streaming recognition data event. -/
structure SttStreamResult where
  alternatives : List String
  isFinal : Bool
  deriving Repr, DecidableEq

/-- The data handler of lines 170-176: it looks only at
`data.results[0]?.alternatives[0]`; when that top alternative exists its
transcript is sent to the client as `{transcript}`, otherwise the event
produces no message.  The `isFinal` flag is never inspected. -/
def liveDataToMessage (results : List SttStreamResult) : Option String :=
  match results with
  | [] => none
  | r :: _ => r.alternatives.head?

/-- Messages pushed to the client over a whole session, given the
sequence of data events emitted by the recognition channel, in emission
order. -/
def liveForwardTranscripts (events : List (List SttStreamResult)) : List String :=
  events.filterMap liveDataToMessage

/-- Replace the final flag of a streaming result, leaving its
alternatives unchanged. -/
def setFinal (b : Bool) (r : SttStreamResult) : SttStreamResult :=
  { r with isFinal := b }

/-- Events delivered by the client WebSocket to the bridge. -/
inductive WsEvent where
  | message (frame : String)
  | close
  deriving Repr, DecidableEq

/-- Actions the bridge performs on the recognition channel:
`recognizeStream.write(msg)` or the half-close `recognizeStream.end()`. -/
inductive StreamAction where
  | write (frame : String)
  | endInput
  deriving Repr, DecidableEq

/-- The two client-side handlers of lines 178-185: every message event
is forwarded verbatim as a write, and the close event half-closes the
recognition channel. -/
def liveClientStep : WsEvent → StreamAction
  | WsEvent.message m => StreamAction.write m
  | WsEvent.close => StreamAction.endInput

/-- Actions performed on the recognition channel over a session, given
the client events in delivery order. -/
def liveClientActions (events : List WsEvent) : List StreamAction :=
  events.map liveClientStep

/-- The audio frames carried by the message events of a client trace,
in order. -/
def messageFrames : List WsEvent → List String :=
  List.filterMap fun e =>
    match e with
    | WsEvent.message m => some m
    | WsEvent.close => none

/-- The frames written to the recognition channel by a list of actions,
in order. -/
def writtenFrames : List StreamAction → List String :=
  List.filterMap fun a =>
    match a with
    | StreamAction.write f => some f
    | StreamAction.endInput => none

/-! ## Helper lemmas -/

/-- The data handler reads exactly the top alternative of the first
result of the event. -/
theorem liveDataToMessage_eq (rs : List SttStreamResult) :
    liveDataToMessage rs = rs.head?.bind fun r => r.alternatives.head? := by
  cases rs <;> rfl

/-- The data handler never inspects the final flag. -/
theorem liveDataToMessage_setFinal (b : Bool) (rs : List SttStreamResult) :
    liveDataToMessage (rs.map (setFinal b)) = liveDataToMessage rs := by
  cases rs <;> rfl

/-- When every result entry has at least one alternative, taking the
optional head of each succeeds and yields the list of top alternatives. -/
theorem mapM_heads_of_nonempty (results : List SttResult)
    (h : ∀ r ∈ results, r.alternatives ≠ []) :
    (results.mapM fun r => r.alternatives.head? : Option (List String)) =
      some (results.map fun r => r.alternatives.headD "") := by
  induction results with
  | nil => rfl
  | cons r rs ih =>
      have hr : r.alternatives ≠ [] := h r (List.mem_cons_self _ _)
      have hh : r.alternatives.head? = some (r.alternatives.headD "") := by
        cases halt : r.alternatives with
        | nil => exact absurd halt hr
        | cons a as => rfl
      have ih2 := ih fun x hx => h x (List.mem_cons_of_mem _ hx)
      rw [List.mapM_cons, hh, ih2]
      rfl

/-! ## Claim theorems: live transcription bridge -/

/-- C3 counterexample: the recognition channel emits one data event
carrying two results (an interim "hello" and a final "world") and a
second event whose only result has no alternatives; the handler pushes
only ["hello"] — the final result "world" is never serialized, so not
every result event is pushed to the client. -/
theorem live_forwarding_drops_results_cex :
    liveForwardTranscripts
        [[⟨["hello"], false⟩, ⟨["world"], true⟩], [⟨[], true⟩]] = ["hello"] ∧
    "world" ∉ liveForwardTranscripts
        [[⟨["hello"], false⟩, ⟨["world"], true⟩], [⟨[], true⟩]] := by
  decide

/-- C3 amended: for each data event the handler inspects only the
first result; when that result has a top alternative its transcript is
pushed as a message, in emission order, and otherwise the event yields
no message.  Interim and final results are treated identically — the
final flag is never inspected — but results beyond the first in an
event, and events whose first result lacks a top alternative, are
silently dropped. -/
theorem live_forwarding_first_result_only (events : List (List SttStreamResult))
    (b : Bool) :
    liveForwardTranscripts events =
      events.filterMap (fun rs => rs.head?.bind fun r => r.alternatives.head?) ∧
    liveForwardTranscripts (events.map (List.map (setFinal b))) =
      liveForwardTranscripts events := by
  constructor
  · have hfun : liveDataToMessage =
        fun rs => rs.head?.bind fun r => r.alternatives.head? :=
      funext liveDataToMessage_eq
    unfold liveForwardTranscripts
    rw [hfun]
  · have hfun : liveDataToMessage ∘ List.map (setFinal b) = liveDataToMessage := by
      funext rs
      exact liveDataToMessage_setFinal b rs
    unfold liveForwardTranscripts
    rw [List.filterMap_map, hfun]

/-- C4: every audio frame received from the client is forwarded
verbatim to the recognition channel in arrival order — the written
frames are exactly the message frames, and the trace [A, B, C] produces
exactly the writes [A, B, C]. -/
theorem live_frames_forwarded_in_order (events : List WsEvent) (A B C : String) :
    writtenFrames (liveClientActions events) = messageFrames events ∧
    liveClientActions [WsEvent.message A, WsEvent.message B, WsEvent.message C] =
      [StreamAction.write A, StreamAction.write B, StreamAction.write C] := by
  constructor
  · induction events with
    | nil => rfl
    | cons e es ih =>
        cases e <;>
          simp [liveClientActions, writtenFrames, messageFrames,
            liveClientStep, List.filterMap_cons] at ih ⊢ <;>
          exact ih
  · rfl

/-- C5: when the client connection closes after sending its frames, the
recognition channel performs exactly the writes of those frames followed
by a single half-close, so it receives exactly one end-of-input signal
and no frame is forwarded after it. -/
theorem live_close_single_half_close (frames : List String) :
    liveClientActions (frames.map WsEvent.message ++ [WsEvent.close]) =
      frames.map StreamAction.write ++ [StreamAction.endInput] ∧
    (liveClientActions (frames.map WsEvent.message ++ [WsEvent.close])).count
      StreamAction.endInput = 1 := by
  have h1 : liveClientActions (frames.map WsEvent.message ++ [WsEvent.close]) =
      frames.map StreamAction.write ++ [StreamAction.endInput] := by
    unfold liveClientActions
    rw [List.map_append, List.map_map]
    rfl
  refine ⟨h1, ?_⟩
  rw [h1, List.count_append]
  have h0 : (frames.map StreamAction.write).count StreamAction.endInput = 0 := by
    clear h1
    induction frames with
    | nil => rfl
    | cons f fs ih => simpa [List.count_cons] using ih
  simp [h0]

/-! ## Claim theorems: batch transcription relay -/

/-- C1 counterexample: when the transcoder fails, neither the original
upload nor the derived wav artifact is deleted (the catch block performs
no cleanup), and the same holds when recognition fails after a
successful conversion — contradicting the claim that cleanup happens on
the failure paths as well. -/
theorem transcribe_failure_no_cleanup_cex :
    (transcribeHandler ⟨Except.error "ffmpeg failed", Except.ok "", Except.ok [],
        Except.ok (), Except.ok ()⟩).2 = ⟨false, false, false⟩ ∧
    (transcribeHandler ⟨Except.ok (), Except.ok "", Except.error "stt failed",
        Except.ok (), Except.ok ()⟩).2 = ⟨true, false, false⟩ ∧
    (transcribeHandler ⟨Except.error "ffmpeg failed", Except.ok "", Except.ok [],
        Except.ok (), Except.ok ()⟩).1.status = 500 ∧
    (transcribeHandler ⟨Except.ok (), Except.ok "", Except.error "stt failed",
        Except.ok (), Except.ok ()⟩).1.status = 500 := by
  decide

/-- C1 amended: cleanup is not unconditional — the uploaded file is
deleted exactly when the transcoder, the wav read, the recognizer and
its own unlink all succeed, and the wav artifact exactly when
additionally its unlink succeeds; on the transcoder-error and
recognition-error paths neither file is deleted. -/
theorem transcribe_cleanup_only_on_success (env : SttEnv) :
    (transcribeHandler env).2.uploadDeleted =
      (isOkB env.transcoder && isOkB env.readWav && isOkB env.recognize &&
        isOkB env.unlinkUpload) ∧
    (transcribeHandler env).2.wavDeleted =
      (isOkB env.transcoder && isOkB env.readWav && isOkB env.recognize &&
        isOkB env.unlinkUpload && isOkB env.unlinkWav) := by
  cases htc : env.transcoder with
  | error e => simp [transcribeHandler, transcribeTry, htc, isOkB]
  | ok u =>
    cases hrw : env.readWav with
    | error e => simp [transcribeHandler, transcribeTry, htc, hrw, isOkB]
    | ok a =>
      cases hrec : env.recognize with
      | error e => simp [transcribeHandler, transcribeTry, htc, hrw, hrec, isOkB]
      | ok results =>
        cases hu1 : env.unlinkUpload with
        | error e =>
            simp [transcribeHandler, transcribeTry, htc, hrw, hrec, hu1, isOkB]
        | ok u1 =>
          cases hu2 : env.unlinkWav with
          | error e =>
              simp [transcribeHandler, transcribeTry, htc, hrw, hrec, hu1, hu2,
                isOkB]
          | ok u2 =>
            cases hj : joinTranscripts results <;>
              simp [transcribeHandler, transcribeTry, htc, hrw, hrec, hu1, hu2,
                hj, isOkB]

/-- C6: when the transcoder, the wav read, the recognizer and both
unlinks succeed and every result entry has at least one alternative,
the handler answers 200 with the top alternatives of all result
entries joined by single spaces, in the order the engine returned
them. -/
theorem transcribe_success_joins_top_alternatives (env : SttEnv)
    (results : List SttResult)
    (h1 : env.transcoder = Except.ok ())
    (h2 : isOkB env.readWav = true)
    (h3 : env.recognize = Except.ok results)
    (h4 : env.unlinkUpload = Except.ok ())
    (h5 : env.unlinkWav = Except.ok ())
    (h6 : ∀ r ∈ results, r.alternatives ≠ []) :
    (transcribeHandler env).1 =
      ⟨200, SttBody.transcriptJson
        (String.intercalate " " (results.map fun r => r.alternatives.headD ""))⟩ := by
  obtain ⟨a, ha⟩ : ∃ a, env.readWav = Except.ok a := by
    cases hw : env.readWav with
    | ok a => exact ⟨a, rfl⟩
    | error e => rw [hw] at h2; simp [isOkB] at h2
  have hj : joinTranscripts results = some (String.intercalate " "
      (results.map fun r => r.alternatives.headD "")) := by
    unfold joinTranscripts
    rw [mapM_heads_of_nonempty results h6]
    rfl
  simp [transcribeHandler, transcribeTry, h1, ha, h3, h4, h5, hj]

/-- C6 witness environment: a job whose recognizer returns the two
results with top alternatives "hello" and "world". -/
def helloWorldEnv : SttEnv :=
  ⟨Except.ok (), Except.ok "YXVkaW8=", Except.ok [⟨["hello"]⟩, ⟨["world"]⟩],
   Except.ok (), Except.ok ()⟩

/-- C6 witness: on the hello/world environment the handler answers
200 with transcript "hello world". -/
theorem transcribe_success_joins_top_alternatives_witness :
    (transcribeHandler helloWorldEnv).1 =
      ⟨200, SttBody.transcriptJson "hello world"⟩ := by
  have h := transcribe_success_joins_top_alternatives helloWorldEnv
      [⟨["hello"]⟩, ⟨["world"]⟩] rfl rfl rfl rfl rfl (by decide)
  rw [h]
  rfl

/-- C7: on transcoder failure the handler answers 500 with
`{error: message}` carrying the transcoder's error message, and the
recognition engine is never invoked for the job. -/
theorem transcribe_transcoder_failure (env : SttEnv) (e : String)
    (h : env.transcoder = Except.error e) :
    (transcribeHandler env).1 = ⟨500, SttBody.errorJson e⟩ ∧
    (transcribeHandler env).2.recognizeCalled = false := by
  simp [transcribeHandler, transcribeTry, h]

/-- C7 witness environment: a job whose transcoder rejects. -/
def ffmpegFailEnv : SttEnv :=
  ⟨Except.error "boom", Except.ok "", Except.ok [], Except.ok (), Except.ok ()⟩

/-- C7 witness: with a rejecting transcoder the handler answers
500 {error: "boom"} without invoking recognition. -/
theorem transcribe_transcoder_failure_witness :
    (transcribeHandler ffmpegFailEnv).1 = ⟨500, SttBody.errorJson "boom"⟩ ∧
    (transcribeHandler ffmpegFailEnv).2.recognizeCalled = false :=
  transcribe_transcoder_failure ffmpegFailEnv "boom" rfl

/-! ## Claim theorems: synthesis relay -/

/-- C2: for a request with non-empty (non-blank) text whose primary
synthesis call fails, the engine is invoked exactly twice — once with
the request text and once with the fixed apology phrase — and the
handler answers 500 exactly when the fallback call also fails; the
fallback failure is caught, the handler always produces a response. -/
theorem tts_primary_failure_exactly_two_calls (env : TtsEnv)
    (file? : Option TtsFile) (t e1 : String)
    (ht : isBlank t = false) (h1 : env.engine t = Except.error e1) :
    (ttsHandler (some t) file? env).2.synthCalls = [t, apologyText] ∧
    ((ttsHandler (some t) file? env).1.status = 500 ↔
      isErr (env.engine apologyText) = true) := by
  have htne : ¬ t = "" := by
    intro h
    subst h
    exact absurd ht (by decide)
  have hfalsy : textIsFalsy (some t) = false := by
    simp [textIsFalsy, htne]
  have htry : ttsTryBody (some t) file? env =
      (Except.error e1, ⟨[], [t], false⟩) := by
    simp [ttsTryBody, hfalsy, synthPhase, ht, h1]
  refine ⟨?_, ?_⟩ <;>
    cases he : env.engine apologyText <;>
    simp [ttsHandler, htry, he, isErr]

/-- C2 witness environment: an engine that fails on every call. -/
def alwaysFailEnv : TtsEnv :=
  ⟨Except.ok "", Except.ok "", Except.ok "", Except.ok (),
   fun _ => Except.error "quota exceeded"⟩

/-- C2 witness: with the always-failing engine and text "hi" the engine
is called exactly with ["hi", apology] and the handler answers 500. -/
theorem tts_primary_failure_exactly_two_calls_witness :
    (ttsHandler (some "hi") none alwaysFailEnv).2.synthCalls =
      ["hi", apologyText] ∧
    (ttsHandler (some "hi") none alwaysFailEnv).1.status = 500 := by
  have h := tts_primary_failure_exactly_two_calls alwaysFailEnv none "hi"
      "quota exceeded" rfl rfl
  exact ⟨h.1, h.2.mpr rfl⟩

/-- C8: a request with falsy text and an uploaded file whose extension
is none of .txt, .pdf, .docx is answered 400 with the
unsupported-file-type message, and neither any extraction adapter nor
the synthesis engine is invoked. -/
theorem tts_unsupported_extension_rejected (text? : Option String) (f : TtsFile)
    (env : TtsEnv) (hfalsy : textIsFalsy text? = true)
    (h1 : ¬ f.ext = ".txt") (h2 : ¬ f.ext = ".pdf") (h3 : ¬ f.ext = ".docx") :
    (ttsHandler text? (some f) env).1 =
      ⟨400, TtsBody.text "Unsupported file type. Please upload .txt, .pdf, or .docx"⟩ ∧
    (ttsHandler text? (some f) env).2.extractorCalls = [] ∧
    (ttsHandler text? (some f) env).2.synthCalls = [] := by
  have htry : ttsTryBody text? (some f) env =
      (Except.ok ⟨400,
        TtsBody.text "Unsupported file type. Please upload .txt, .pdf, or .docx"⟩,
       ⟨[], [], false⟩) := by
    simp [ttsTryBody, hfalsy, fileBranch, h1, h2, h3]
  simp [ttsHandler, htry]

/-- C8 witness environment: all adapters and the engine succeed, so any
call they received would be visible in the trace. -/
def engineOkEnv : TtsEnv :=
  ⟨Except.ok "", Except.ok "", Except.ok "", Except.ok (),
   fun _ => Except.ok "AUDIO"⟩

/-- C8 witness: a .xyz upload with no text field is answered 400 and
no adapter or engine call is made. -/
theorem tts_unsupported_extension_rejected_witness :
    (ttsHandler none (some ⟨".xyz"⟩) engineOkEnv).1 =
      ⟨400, TtsBody.text "Unsupported file type. Please upload .txt, .pdf, or .docx"⟩ ∧
    (ttsHandler none (some ⟨".xyz"⟩) engineOkEnv).2.extractorCalls = [] ∧
    (ttsHandler none (some ⟨".xyz"⟩) engineOkEnv).2.synthCalls = [] :=
  tts_unsupported_extension_rejected none ⟨".xyz"⟩ engineOkEnv rfl
    (by decide) (by decide) (by decide)

/-- C9: whenever the try block of the tts handler throws — for any
reason: extraction failure, file read failure, unlink failure or
primary synthesis failure — the catch block makes exactly one further
engine call with the apology phrase, and a 500 is emitted exactly when
that fallback call fails too. -/
theorem tts_try_error_falls_back (text? : Option String) (file? : Option TtsFile)
    (env : TtsEnv) (e : String)
    (h : (ttsTryBody text? file? env).1 = Except.error e) :
    (ttsHandler text? file? env).2.synthCalls =
      (ttsTryBody text? file? env).2.synthCalls ++ [apologyText] ∧
    ((ttsHandler text? file? env).1.status = 500 ↔
      isErr (env.engine apologyText) = true) := by
  rcases hp : ttsTryBody text? file? env with ⟨res, tr⟩
  rw [hp] at h
  simp only at h
  subst h
  refine ⟨?_, ?_⟩ <;>
    cases he : env.engine apologyText <;>
    simp [ttsHandler, hp, he, isErr]

/-- C9 witness environment: pdf extraction fails while the engine
succeeds, so the thrown error is not a synthesis failure. -/
def pdfFailEnv : TtsEnv :=
  ⟨Except.ok "", Except.error "bad pdf", Except.ok "", Except.ok (),
   fun _ => Except.ok "AUDIO"⟩

/-- C9 witness: a .pdf upload whose extraction throws still triggers
the single apology fallback call (and, the engine succeeding, the
response is the fallback audio, not a 500). -/
theorem tts_try_error_falls_back_witness :
    (ttsHandler none (some ⟨".pdf"⟩) pdfFailEnv).2.synthCalls =
      (ttsTryBody none (some ⟨".pdf"⟩) pdfFailEnv).2.synthCalls ++ [apologyText] ∧
    (ttsHandler none (some ⟨".pdf"⟩) pdfFailEnv).1.status = 200 := by
  have h := tts_try_error_falls_back none (some ⟨".pdf"⟩) pdfFailEnv "bad pdf" rfl
  refine ⟨h.1, ?_⟩
  decide

/-- C10: when the tts handler rejects an upload for an unsupported
extension, the early 400 return exits before the unlink, so the
uploaded temporary file is not deleted. -/
theorem tts_unsupported_extension_upload_kept (text? : Option String)
    (f : TtsFile) (env : TtsEnv) (hfalsy : textIsFalsy text? = true)
    (h1 : ¬ f.ext = ".txt") (h2 : ¬ f.ext = ".pdf") (h3 : ¬ f.ext = ".docx") :
    (ttsHandler text? (some f) env).2.uploadDeleted = false ∧
    (ttsHandler text? (some f) env).1.status = 400 := by
  have htry : ttsTryBody text? (some f) env =
      (Except.ok ⟨400,
        TtsBody.text "Unsupported file type. Please upload .txt, .pdf, or .docx"⟩,
       ⟨[], [], false⟩) := by
    simp [ttsTryBody, hfalsy, fileBranch, h1, h2, h3]
  simp [ttsHandler, htry]

/-- C10 witness: a .exe upload with an empty text field gets a 400 and
its temp file stays on disk. -/
theorem tts_unsupported_extension_upload_kept_witness :
    (ttsHandler (some "") (some ⟨".exe"⟩) engineOkEnv).2.uploadDeleted = false ∧
    (ttsHandler (some "") (some ⟨".exe"⟩) engineOkEnv).1.status = 400 :=
  tts_unsupported_extension_upload_kept (some "") ⟨".exe"⟩ engineOkEnv rfl
    (by decide) (by decide) (by decide)
